import Mathlib

/-!
Shallow embedding of `scripts/start_local_env.py` (the bootstrap orchestrator of
the hong-bao repository).

The script supervises a local blockchain node: it reclaims a port, launches the
node process, polls a readiness endpoint until the node is up or has crashed,
optionally runs a provisioning workflow (`fresh_start`), and then blocks waiting
for node exit, handling a single interrupt.

Modelling choices:
* Effects are captured by `StepM`, a writer-plus-error monad: a computation is a
  pair of the list of observable events it emitted (subprocess invocations,
  probes, sleeps, prints, ...) and an `Except PyError` result.  An uncaught
  Python exception is `Except.error`.
* `urllib.request.urlopen` against the readiness endpoint is abstracted by a
  list of `ProbeResult`s: the outcome of each successive probe.  The list is the
  observed finite prefix of the run; exhausting it means the loop is still
  polling.
* `subprocess.Popen.poll()` returns `none` while the child runs and `some code`
  after it exits; the script tests the raw value for Python truthiness.
* `subprocess.run` is modelled by `subprocessRun`: since the keyword arguments
  never request stdout capture, `CompletedProcess.stdout` is `none` exactly as
  in CPython; when stdout were captured it would hold the JSON value printed by
  the child (we represent captured text by its parsed JSON value, which is what
  `json.loads` of that text yields).
* Python `str.join` over arbitrary objects is modelled by `strJoin` on `PyObj`,
  raising `TypeError` at the first non-string item, as CPython does.
-/

/-- JSON values, as produced by `json.loads`. -/
inductive Json
  | null
  | str (s : String)
  | num (n : Int)
  | bool (b : Bool)
  | arr (elems : List Json)
  | obj (kvs : List (String × Json))

/-- Python exceptions that the script can raise. -/
inductive PyError
  | attributeError (msg : String)
  | typeError (msg : String)
  | keyError (key : String)
  | nameError (name : String)
  | calledProcessError (cmd : List String)
deriving DecidableEq

/-- Observable events of a run of the script. -/
inductive Event
  | reclaimPort (port : Nat)
  | launchNode
  | probe
  | sleepPoll
  | print (msg : String)
  | printStdout
  | printChange
  | freshStartInvoked
  | runSubprocess (cmd : List String)
  | queryTxn
  | waitChild
  | interruptDelivered
  | killChild
  | sendSignal
deriving DecidableEq

/-- Writer-plus-error monad: the events emitted so far together with the
result (or the uncaught Python exception). -/
abbrev StepM (α : Type) : Type := List Event × Except PyError α

def StepM.bind {α β : Type} (x : StepM α) (f : α → StepM β) : StepM β :=
  match x.2 with
  | Except.error e => (x.1, Except.error e)
  | Except.ok a => (x.1 ++ (f a).1, (f a).2)

instance : Monad StepM where
  pure a := ([], Except.ok a)
  bind := StepM.bind

/-- Emit one observable event. -/
def emit (e : Event) : StepM Unit := ([e], Except.ok ())

/-- Raise a Python exception. -/
def pyRaise {α : Type} (e : PyError) : StepM α := ([], Except.error e)

/-- Lift a pure fallible computation (no events). -/
def liftE {α : Type} (x : Except PyError α) : StepM α := ([], x)

def traceOf {α : Type} (m : StepM α) : List Event := m.1

def resultOf {α : Type} (m : StepM α) : Except PyError α := m.2

/- ------------------------------------------------------------------ -/
/- Constants of the script (lines 16-44).                             -/
/- ------------------------------------------------------------------ -/

def DEPLOYER_PRIVATE_KEY : String :=
  "0xc7e8f661af55fa7e8e52f5b2f5d3daf3f3f49040ea1f05c07c29c47c3ad877c0"

def DEPLOYER_ADDRESS : String :=
  "0x5322ac25e855378909b517008c4a16137fc9dbd6c6ff8c5e762ab887002442e5"

def DEPLOYER_PROFILE_NAME : String := "deployer"

def PLAYER1_PRIVATE_KEY : String :=
  "0xece937b5a5f1df41ba6a550e212492ee98573d3799d0035aa20c29674cd0ceff"

def PLAYER1_ADDRESS : String :=
  "0x296102a3893d43e11de2aa142fbb126377120d7d71c246a2f95d5b4f3ba16b30"

def PLAYER1_PROFILE_NAME : String := "local"

def PLAYER2_PRIVATE_KEY : String :=
  "0xece937b5a5f1df41ba6a550e212492ee98573d3799d0035aa20c29674cd0cefd"

def PLAYER2_ADDRESS : String :=
  "0xaf769425b319270f91768e8910ed4cde16c4cea32751062c9ab3f2b21adc27b4"

def PLAYER2_PROFILE_NAME : String := "player2"

def PACKAGE : String := "hongbao"

def HONGBAO_MODULE : String := "hongbao"

/-- The keyword arguments passed to every provisioning `subprocess.run`
(lines 40-44).  Note: no `stdout` or `capture_output` key is present. -/
def DEFAULT_SUBPROCESS_KWARGS : List (String × String) :=
  [("check", "True"), ("universal_newlines", "True"), ("cwd", "move/")]

/-- Parsed command-line arguments (`parse_args`, lines 47-60). -/
structure Args where
  debug : Bool
  forceRestart : Bool
  offline : Bool
  aptosCliPath : String

/- ------------------------------------------------------------------ -/
/- The readiness-poll loop (main, lines 80-91).                       -/
/- ------------------------------------------------------------------ -/

/-- Outcome of one `urllib.request.urlopen("http://127.0.0.1:8070")` call:
either the request returned with an HTTP status, or it raised and the
script read `local_testnet_handle.poll()` (which is `none` while the child
is alive, and the exit code once it has exited). -/
inductive ProbeResult
  | success (status : Nat)
  | failure (pollResult : Option Int)
deriving DecidableEq

/-- How the readiness loop can exit. -/
inductive LoopExit
  | ready
  | crashed
deriving DecidableEq

/-- Python truthiness of the value returned by `Popen.poll()`: `None` and
`0` are falsy, any nonzero exit code is truthy (line 88 tests
`if local_testnet_handle.poll():`). -/
def pyTruthy : Option Int → Bool
  | none => false
  | some code => code != 0

/-- The `while True` readiness loop of `main` (lines 80-91), driven by the
observed prefix of probe outcomes.  Returns `none` when the prefix is
exhausted with the loop still polling. -/
def readyLoop : List ProbeResult → StepM (Option LoopExit)
  | [] => pure none
  | probeResult :: rest => do
      emit Event.probe
      match probeResult with
      | ProbeResult.success status =>
          if status == 200 then
            pure (some LoopExit.ready)
          else do
            emit Event.sleepPoll
            readyLoop rest
      | ProbeResult.failure pollResult =>
          if pyTruthy pollResult then do
            emit (Event.print "[Local] Localnet crashed on startup, exiting...")
            pure (some LoopExit.crashed)
          else do
            emit Event.sleepPoll
            readyLoop rest

/-- The loop exit observed on this prefix of probes (`none`: still polling). -/
def loopExitOf (probes : List ProbeResult) : Option LoopExit :=
  match (readyLoop probes).2 with
  | Except.ok e => e
  | Except.error _ => none

/-- Number of readiness probes issued on this prefix. -/
def probeCountOf (probes : List ProbeResult) : Nat :=
  (traceOf (readyLoop probes)).count Event.probe

/- ------------------------------------------------------------------ -/
/- subprocess.run and JSON access primitives.                          -/
/- ------------------------------------------------------------------ -/

/-- The object returned by `subprocess.run`.  `stdout` is `none` unless the
call requested capture; captured text is represented by its parsed JSON
value (what `json.loads` of that text yields). -/
structure CompletedProcess where
  returncode : Int
  stdout : Option Json

/-- Whether a `subprocess.run` keyword-argument set captures stdout: CPython
populates `CompletedProcess.stdout` only when `stdout=PIPE` or
`capture_output=True` was passed. -/
def capturesStdout (kwargs : List (String × String)) : Bool :=
  (kwargs.lookup "stdout").isSome || (kwargs.lookup "capture_output").isSome

/-- Whether `check=True` is among the keyword arguments. -/
def checkFlag (kwargs : List (String × String)) : Bool :=
  kwargs.lookup "check" == some "True"

/-- `subprocess.run(cmd, **kwargs)` given the exit code of the child and the
JSON value the child printed to stdout.  With `check=True` a nonzero exit
raises `CalledProcessError`. -/
def subprocessRun (cmd : List String) (kwargs : List (String × String))
    (childExit : Int) (childStdout : Json) : Except PyError CompletedProcess :=
  if checkFlag kwargs && childExit != 0 then
    Except.error (PyError.calledProcessError cmd)
  else
    Except.ok
      { returncode := childExit
        stdout := if capturesStdout kwargs then some childStdout else none }

/-- Invoke a subprocess: the invocation itself is an observable event, then
`subprocess.run` either returns a `CompletedProcess` or raises. -/
def runSub (cmd : List String) (kwargs : List (String × String))
    (childExit : Int) (childStdout : Json) : StepM CompletedProcess :=
  ([Event.runSubprocess cmd], subprocessRun cmd kwargs childExit childStdout)

/-- `json.loads(x)` where `x` is a `CompletedProcess.stdout`: `json.loads`
of `None` raises `TypeError`; on captured text it yields the parsed value. -/
def jsonLoads (stdout : Option Json) : Except PyError Json :=
  match stdout with
  | none =>
      Except.error (PyError.typeError
        "the JSON object must be str, bytes or bytearray, not NoneType")
  | some j => Except.ok j

/-- Python `value[key]` on a parsed JSON value: `KeyError` when the key is
missing, `TypeError` when the value is not a dict. -/
def getItem (j : Json) (key : String) : Except PyError Json :=
  match j with
  | Json.obj kvs =>
      match kvs.lookup key with
      | some v => Except.ok v
      | none => Except.error (PyError.keyError key)
  | _ => Except.error (PyError.typeError "value is not subscriptable")

/-- Python `value.get(key)` on a parsed JSON value: `None` when missing,
`AttributeError` when the value is not a dict. -/
def dictGet (j : Json) (key : String) : Except PyError (Option Json) :=
  match j with
  | Json.obj kvs => Except.ok (kvs.lookup key)
  | _ => Except.error (PyError.attributeError "value has no attribute get")

/-- Python iteration over `data["changes"]`: the script only behaves as
intended on a JSON array; any non-array value raises `TypeError` in the
loop body. -/
def asArr (j : Json) : Except PyError (List Json) :=
  match j with
  | Json.arr elems => Except.ok elems
  | _ => Except.error (PyError.typeError "value is not iterable")

/-- Python `==` between a fetched JSON value and a string literal: true
exactly when the value is that string. -/
def jsonOptEqStr (v : Option Json) (s : String) : Bool :=
  match v with
  | some (Json.str t) => decide (t = s)
  | _ => false

/- ------------------------------------------------------------------ -/
/- Python objects and str.join (for the snatch step, lines 213-229).  -/
/- ------------------------------------------------------------------ -/

/-- The Python objects appearing in the snatch step argument list: strings,
tuples, lists, and values that came from parsed JSON. -/
inductive PyObj
  | str (s : String)
  | tup (items : List PyObj)
  | lst (items : List PyObj)
  | json (j : Json)

/-- The Python type name used in the `str.join` error message. -/
def PyObj.typeName : PyObj → String
  | PyObj.str _ => "str"
  | PyObj.tup _ => "tuple"
  | PyObj.lst _ => "list"
  | PyObj.json _ => "object"

/-- Embed a parsed JSON value as the Python object it is (a JSON string is a
Python `str`). -/
def pyOfJson : Json → PyObj
  | Json.str s => PyObj.str s
  | j => PyObj.json j

def strJoinAux (sep : String) : Nat → List PyObj → String → Except PyError String
  | _, [], acc => Except.ok acc
  | k, item :: rest, acc =>
      match item with
      | PyObj.str s =>
          strJoinAux sep (k + 1) rest (if k = 0 then s else acc ++ sep ++ s)
      | other =>
          Except.error (PyError.typeError
            ("sequence item " ++ toString k ++ ": expected str instance, "
              ++ other.typeName ++ " found"))

/-- CPython `sep.join(items)`: concatenates string items, raising
`TypeError` at the first non-string item. -/
def strJoin (sep : String) (items : List PyObj) : Except PyError String :=
  strJoinAux sep 0 items ""

/- ------------------------------------------------------------------ -/
/- The provisioning workflow: fresh_start (lines 113-235).            -/
/- ------------------------------------------------------------------ -/

/-- Environment of a `fresh_start` run: exit codes and stdout of the
subprocesses it launches, and the JSON document the transactions-by-hash
endpoint returns. -/
structure FreshStartEnv where
  initExit : String → Int
  publishExit : Int
  createGiftExit : Int
  createGiftOutput : Json
  txnData : Json
  snatchExit : Int
  snatchOutput : Json

/-- The three fixed accounts created by `fresh_start` (lines 115-119). -/
def ACCOUNTS : List (String × String) :=
  [(DEPLOYER_PROFILE_NAME, DEPLOYER_PRIVATE_KEY),
   (PLAYER1_PROFILE_NAME, PLAYER1_PRIVATE_KEY),
   (PLAYER2_PROFILE_NAME, PLAYER2_PRIVATE_KEY)]

/-- The `aptos init` command for one profile (lines 121-136). -/
def initCmd (cli profileName privateKey : String) : List String :=
  [cli, "init", "--network", "local", "--private-key", privateKey,
   "--assume-yes", "--profile", profileName]

/-- The account-creation loop of `fresh_start` (lines 115-137). -/
def create_accounts (cli : String) (env : FreshStartEnv) :
    List (String × String) → StepM Unit
  | [] => pure ()
  | (profileName, privateKey) :: rest => do
      let _ ← runSub (initCmd cli profileName privateKey)
        DEFAULT_SUBPROCESS_KWARGS (env.initExit profileName) Json.null
      emit (Event.print ("[Local] Created account " ++ profileName ++ " on localnet"))
      create_accounts cli env rest

/-- Extra flags for move commands when `--offline` is set (lines 139-141). -/
def moveCmdExtra (offline : Bool) : List String :=
  if offline then ["--skip-fetch-latest-git-deps"] else []

/-- The `aptos move publish` command (lines 144-157). -/
def publishCmd (cli : String) (offline : Bool) : List String :=
  [cli, "move", "publish", "--named-addresses", "addr=" ++ DEPLOYER_ADDRESS,
   "--assume-yes", "--profile", DEPLOYER_PROFILE_NAME] ++ moveCmdExtra offline

/-- The `aptos move run ... create_gift_coin` command (lines 161-181).
`now` is `time.time()` in whole seconds; the expiry argument is
`int(time.time() + 60 * 30)`. -/
def createGiftCmd (cli : String) (now : Nat) : List String :=
  [cli, "move", "run", "--assume-yes", "--profile", DEPLOYER_PROFILE_NAME,
   "--function-id",
   DEPLOYER_PROFILE_NAME ++ "::" ++ HONGBAO_MODULE ++ "::create_gift_coin",
   "--type-args", "0x1::aptos_coin::AptosCoin", "--args",
   "u64:4",
   "u64:" ++ toString (now + 60 * 30),
   "u64:" ++ toString (10 ^ 7),
   "u8:[]",
   "bool:false"]

/-- `json.loads(result.stdout)["Result"]["transaction_hash"]` (line 186). -/
def getTxnHash (result : CompletedProcess) : Except PyError Json := do
  let j ← jsonLoads result.stdout
  let r ← getItem j "Result"
  getItem r "transaction_hash"

/-- Lines 161-186: submit the gift-creation transaction, print its stdout,
and extract the transaction hash from the captured stdout. -/
def createGiftAndGetHash (cli : String) (env : FreshStartEnv) (now : Nat) :
    StepM Json := do
  let result ← runSub (createGiftCmd cli now) DEFAULT_SUBPROCESS_KWARGS
    env.createGiftExit env.createGiftOutput
  emit Event.printStdout
  liftE (getTxnHash result)

/-- Lines 189-192: fetch the full transaction by hash from the node RPC API
and parse the response body. -/
def queryTxnByHash (_txnHash : Json) (env : FreshStartEnv) : StepM Json := do
  emit Event.queryTxn
  pure env.txnData

/-- The fully-qualified type string the change scan looks for (line 197). -/
def EXPECTED_GIFT_TYPE : String :=
  DEPLOYER_ADDRESS ++ "::" ++ HONGBAO_MODULE ++ "::Gift"

/-- The `for change in data["changes"]` scan (lines 195-199): print each
change, and return the address of the first change whose
`change["data"].get("type")` equals the expected Gift type. -/
def scanChanges : List Json → StepM (Option Json)
  | [] => pure none
  | c :: rest => do
      emit Event.printChange
      let d ← liftE (getItem c "data")
      let t ← liftE (dictGet d "type")
      if jsonOptEqStr t EXPECTED_GIFT_TYPE then do
        let a ← liftE (getItem c "address")
        pure (some a)
      else
        scanChanges rest

/-- Lines 195-200: scan the changes; when no change matched, the
`print(f"[Local] Created gift at \x7bgift_address\x7d")` on line 200 raises
`NameError` because `gift_address` was never assigned. -/
def resolveGiftAddress (changes : List Json) : StepM Json := do
  match ← scanChanges changes with
  | some a => pure a
  | none => pyRaise (PyError.nameError "gift_address")

/-- The `aptos move run ... snatch_packet` command (lines 203-230), given
the already-joined `--args` string. -/
def snatchCmd (cli argStr : String) : List String :=
  [cli, "move", "run", "--assume-yes", "--profile", PLAYER1_PROFILE_NAME,
   "--function-id",
   DEPLOYER_PROFILE_NAME ++ "::" ++ HONGBAO_MODULE ++ "::snatch_packet",
   "--args", argStr]

/-- The argument to `",".join(...)` on lines 214-229: a list of three
2-tuples (pairs of CLI type tag and value), not strings. -/
def snatchJoinItems (giftAddress : PyObj) : List PyObj :=
  [PyObj.tup [PyObj.str "address", giftAddress],
   PyObj.tup [PyObj.str "vector<u8>", PyObj.lst []],
   PyObj.tup [PyObj.str "vector<u8>", PyObj.lst []]]

/-- The snatch step (lines 202-233): build the `--args` string with
`",".join`, then run the CLI as player 1. -/
def snatchStep (cli : String) (giftAddress : PyObj) (env : FreshStartEnv) :
    StepM Unit := do
  let argStr ← liftE (strJoin "," (snatchJoinItems giftAddress))
  let _ ← runSub (snatchCmd cli argStr) DEFAULT_SUBPROCESS_KWARGS
    env.snatchExit env.snatchOutput
  pure ()

/-- Lines 195-233: resolve the gift address from the changes, report it,
then have player 1 snatch. -/
def resolveAndSnatch (cli : String) (env : FreshStartEnv)
    (changes : List Json) : StepM Unit := do
  let giftAddress ← resolveGiftAddress changes
  emit (Event.print "[Local] Created gift at")
  snatchStep cli (pyOfJson giftAddress) env
  emit (Event.print ("[Local] Snatched  as " ++ PLAYER1_PROFILE_NAME))

/-- The provisioning workflow `fresh_start` (lines 113-235). -/
def fresh_start (args : Args) (env : FreshStartEnv) (now : Nat) : StepM Unit := do
  create_accounts args.aptosCliPath env ACCOUNTS
  let _ ← runSub (publishCmd args.aptosCliPath args.offline)
    DEFAULT_SUBPROCESS_KWARGS env.publishExit Json.null
  emit (Event.print ("[Local] Published the " ++ PACKAGE ++ " Move module at "
    ++ DEPLOYER_ADDRESS))
  let txnHash ← createGiftAndGetHash args.aptosCliPath env now
  let data ← queryTxnByHash txnHash env
  let changes ← liftE (getItem data "changes")
  let changesList ← liftE (asArr changes)
  resolveAndSnatch args.aptosCliPath env changesList
  emit (Event.print "[Local] Done, you can now interact with the localnet!")

/- ------------------------------------------------------------------ -/
/- The supervisor: main (lines 63-109).                               -/
/- ------------------------------------------------------------------ -/

/-- Modelled from the Python standard library: the `logging` module object
has no module-level `setLevel` attribute (`setLevel` is a method of
`Logger` instances), so the attribute access `logging.setLevel("DEBUG")`
on line 67 raises `AttributeError` at once. -/
def loggingSetLevel : StepM Unit :=
  ([], Except.error (PyError.attributeError
    "module logging has no attribute setLevel"))

/-- How the blocking `local_testnet_handle.wait()` phase unfolds: either the
node exits on its own, or a single interrupt (ctrl-c) arrives while
waiting. -/
inductive WaitBehavior
  | exitsNormally
  | interrupted
deriving DecidableEq

/-- Lines 100-107: block on `wait()`; on `KeyboardInterrupt` (the interrupt
was delivered to the process group, reaching the child once) print, then
simply `wait()` again - no `kill()`, no second signal. -/
def waitPhase : WaitBehavior → StepM Unit
  | WaitBehavior.exitsNormally => emit Event.waitChild
  | WaitBehavior.interrupted => do
      emit Event.waitChild
      emit Event.interruptDelivered
      emit (Event.print "[Local] Received ctrl-c, shutting down localnet")
      emit Event.waitChild
      emit (Event.print "[Local] Localnet shut down")

/-- Result of a `main` run (on the observed prefix of probe outcomes). -/
inductive MainOutcome
  | crashedStartup
  | stillPolling
  | finished
deriving DecidableEq

/-- Lines 92-109 of `main`: everything after the readiness loop has
observed a 200.  `Event.freshStartInvoked` marks the call site of
`fresh_start(args)` on line 95. -/
def afterReady (args : Args) (env : FreshStartEnv) (w : WaitBehavior)
    (now : Nat) : StepM MainOutcome := do
  emit (Event.print "[Local] Localnet came up!")
  if args.forceRestart then do
    emit Event.freshStartInvoked
    fresh_start args env now
  emit (Event.print "[Local] Setup complete, localnet is ready and running")
  waitPhase w
  emit (Event.print "[Local] Done, goodbye!")
  pure MainOutcome.finished

/-- The source function `main` (lines 63-109): optional debug logging
setup, reclaim port 8080, launch the localnet, poll until ready or
crashed, then provision (with `--force-restart`) and block on node exit.
(Named `mainRun` because `main` is reserved for executables in Lean.) -/
def mainRun (args : Args) (probes : List ProbeResult) (env : FreshStartEnv)
    (w : WaitBehavior) (now : Nat) : StepM MainOutcome := do
  if args.debug then loggingSetLevel
  emit (Event.reclaimPort 8080)
  emit Event.launchNode
  emit (Event.print "[Local] Waiting for localnet to start up...")
  let r ← readyLoop probes
  match r with
  | some LoopExit.crashed => pure MainOutcome.crashedStartup
  | none => pure MainOutcome.stillPolling
  | some LoopExit.ready => afterReady args env w now

/-- The trace of `main` up to and including the readiness loop. -/
def preReadyTrace (probes : List ProbeResult) : List Event :=
  Event.reclaimPort 8080 :: Event.launchNode ::
    Event.print "[Local] Waiting for localnet to start up..." ::
      traceOf (readyLoop probes)

/-- Exit status of the Python process for this run: an uncaught exception
makes the interpreter exit 1; a normal return from `main` exits 0.  (The
`stillPolling` outcome never actually returns and is not used in
exit-status claims.) -/
def mainExitStatus (args : Args) (probes : List ProbeResult)
    (env : FreshStartEnv) (w : WaitBehavior) (now : Nat) : Nat :=
  match (mainRun args probes env w now).2 with
  | Except.error _ => 1
  | Except.ok _ => 0

/-- A state-change record shaped as the RPC API returns them: a `data`
object carrying an optional `type` string, and an `address`. -/
def mkChange (ty : Option String) (addr : Json) : Json :=
  Json.obj
    [("data", Json.obj
        (match ty with
         | some t => [("type", Json.str t)]
         | none => [])),
     ("address", addr)]

/-- Whether an event is a subprocess invocation. -/
def isRunSubprocess : Event → Bool
  | Event.runSubprocess _ => true
  | _ => false

/-- Timing of the readiness loop (lines 80-91): the k-th probe starts at
`probeTime p d k`, where `p` is the `time.sleep` interval between
iterations (0.25 in the source) and `d k ≥ 0` is the duration of the k-th
probe itself: each iteration issues one probe and then sleeps `p` before
the next. -/
def probeTime (p : ℚ) (d : Nat → ℚ) : Nat → ℚ
  | 0 => 0
  | k + 1 => probeTime p d k + d k + p

/-- A benign environment: every subprocess exits 0, outputs are `null`. -/
def sampleEnv : FreshStartEnv :=
  ⟨fun _ => 0, 0, 0, Json.null, Json.null, 0, Json.null⟩

/-- An environment whose gift-creation child prints exactly the expected
JSON document to stdout. -/
def c5Env : FreshStartEnv :=
  ⟨fun _ => 0, 0, 0,
   Json.obj [("Result", Json.obj [("transaction_hash", Json.str "0xabc")])],
   Json.null, 0, Json.null⟩

/-- An environment whose `aptos init` for the deployer profile fails. -/
def c7Env : FreshStartEnv :=
  ⟨fun _ => 1, 0, 0, Json.null, Json.null, 0, Json.null⟩

/-- An environment whose `aptos move publish` fails (inits succeed). -/
def c7PubEnv : FreshStartEnv :=
  ⟨fun _ => 0, 1, 0, Json.null, Json.null, 0, Json.null⟩

/-- An environment whose gift-creation subprocess fails (inits and the
publish succeed). -/
def c7GiftEnv : FreshStartEnv :=
  ⟨fun _ => 0, 0, 1, Json.null, Json.null, 0, Json.null⟩

/-- Arguments of a run without `--force-restart`. -/
def noForceArgs : Args := ⟨false, false, false, "aptos"⟩

/-- Arguments of a run with `--force-restart`. -/
def forceArgs : Args := ⟨false, true, false, "aptos"⟩

/-- Two non-matching state-change records (a wrong type, a missing type). -/
def c3Pre : List (Option String × Json) :=
  [(some "0x1::coin::CoinStore", Json.null), (none, Json.null)]


/- DEFS-END -/

/- ------------------------------------------------------------------ -/
/- Theorems.                                                          -/
/- ------------------------------------------------------------------ -/

@[simp] theorem stepBind_eq {α β : Type} (x : StepM α) (f : α → StepM β) :
    (x >>= f) = StepM.bind x f := rfl

@[simp] theorem stepPure_eq {α : Type} (a : α) :
    (pure a : StepM α) = ([], Except.ok a) := rfl

@[simp] theorem stepBind_err {α β : Type} (evs : List Event) (e : PyError)
    (f : α → StepM β) :
    StepM.bind (evs, Except.error e) f = (evs, Except.error e) := rfl

@[simp] theorem stepBind_ok {α β : Type} (evs : List Event) (a : α)
    (f : α → StepM β) :
    StepM.bind (evs, Except.ok a) f = (evs ++ (f a).1, (f a).2) := rfl

theorem stepBind_of_ok {α β : Type} {x : StepM α} {a : α}
    (h : x.2 = Except.ok a) (f : α → StepM β) :
    StepM.bind x f = (x.1 ++ (f a).1, (f a).2) := by
  unfold StepM.bind
  rw [h]

theorem stepBind_of_err {α β : Type} {x : StepM α} {e : PyError}
    (h : x.2 = Except.error e) (f : α → StepM β) :
    StepM.bind x f = (x.1, Except.error e) := by
  unfold StepM.bind
  rw [h]

theorem readyLoop_ok (probes : List ProbeResult) :
    (readyLoop probes).2 = Except.ok (loopExitOf probes) := by
  unfold loopExitOf
  induction probes with
  | nil => rfl
  | cons p rest ih =>
      cases p with
      | success status =>
          by_cases h : status == 200 <;>
            simp [readyLoop, h, StepM.bind, emit] <;>
            rcases hrec : (readyLoop rest).2 with e | a <;>
            simp [hrec] at ih ⊢
      | failure pollResult =>
          by_cases h : pyTruthy pollResult <;>
            simp [readyLoop, h, StepM.bind, emit] <;>
            rcases hrec : (readyLoop rest).2 with e | a <;>
            simp [hrec] at ih ⊢


theorem main_ready_eq (args : Args) (probes : List ProbeResult)
    (env : FreshStartEnv) (w : WaitBehavior) (now : Nat)
    (hdbg : args.debug = false)
    (hready : loopExitOf probes = some LoopExit.ready) :
    mainRun args probes env w now =
      (preReadyTrace probes ++ traceOf (afterReady args env w now),
       resultOf (afterReady args env w now)) := by
  have h2 : (readyLoop probes).2 = Except.ok (some LoopExit.ready) := by
    rw [readyLoop_ok, hready]
  unfold mainRun
  simp only [hdbg, if_false, Bool.false_eq_true, stepBind_eq, stepPure_eq,
    stepBind_ok, emit]
  rw [stepBind_of_ok h2]
  simp [preReadyTrace, traceOf, resultOf]

theorem main_crashed_eq (args : Args) (probes : List ProbeResult)
    (env : FreshStartEnv) (w : WaitBehavior) (now : Nat)
    (hdbg : args.debug = false)
    (hcrash : loopExitOf probes = some LoopExit.crashed) :
    mainRun args probes env w now =
      (preReadyTrace probes, Except.ok MainOutcome.crashedStartup) := by
  have h2 : (readyLoop probes).2 = Except.ok (some LoopExit.crashed) := by
    rw [readyLoop_ok, hcrash]
  unfold mainRun
  simp only [hdbg, if_false, Bool.false_eq_true, stepBind_eq, stepPure_eq,
    stepBind_ok, emit]
  rw [stepBind_of_ok h2]
  simp [preReadyTrace, traceOf, resultOf]

/- ------------------------------------------------------------------ -/
/- Trace lemmas.                                                      -/
/- ------------------------------------------------------------------ -/

theorem readyLoop_mem (probes : List ProbeResult) :
    ∀ e ∈ traceOf (readyLoop probes),
      e = Event.probe ∨ e = Event.sleepPoll ∨
        e = Event.print "[Local] Localnet crashed on startup, exiting..." := by
  induction probes with
  | nil =>
      intro e he
      simp [readyLoop, traceOf] at he
  | cons p rest ih =>
      intro e he
      cases p with
      | success status =>
          by_cases h : status == 200
          · simp [readyLoop, h, StepM.bind, emit, traceOf] at he
            simp [he]
          · simp [readyLoop, h, StepM.bind, emit, traceOf] at he
            rcases he with he | he | he
            · simp [he]
            · simp [he]
            · exact ih e he
      | failure pollResult =>
          by_cases h : pyTruthy pollResult
          · simp [readyLoop, h, StepM.bind, emit, traceOf] at he
            rcases he with he | he
            · simp [he]
            · simp [he]
          · simp [readyLoop, h, StepM.bind, emit, traceOf] at he
            rcases he with he | he | he
            · simp [he]
            · simp [he]
            · exact ih e he

theorem readyLoop_count_eq_zero (probes : List ProbeResult) (c : Event)
    (h1 : c ≠ Event.probe) (h2 : c ≠ Event.sleepPoll)
    (h3 : c ≠ Event.print "[Local] Localnet crashed on startup, exiting...") :
    (traceOf (readyLoop probes)).count c = 0 := by
  rw [List.count_eq_zero]
  intro hmem
  rcases readyLoop_mem probes c hmem with h | h | h
  · exact h1 h
  · exact h2 h
  · exact h3 h

theorem readyLoop_crash_print (probes : List ProbeResult)
    (h : loopExitOf probes = some LoopExit.crashed) :
    Event.print "[Local] Localnet crashed on startup, exiting..."
      ∈ traceOf (readyLoop probes) := by
  induction probes with
  | nil => simp [loopExitOf, readyLoop] at h
  | cons p rest ih =>
      cases p with
      | success status =>
          by_cases hs : status == 200
          · simp [loopExitOf, readyLoop, hs, StepM.bind, emit] at h
          · simp only [loopExitOf, readyLoop, hs, stepBind_eq, stepBind_ok,
              stepPure_eq, emit, Bool.false_eq_true, if_false] at h ⊢
            rw [readyLoop_ok] at h
            simp [traceOf] at h ⊢
            simpa [traceOf] using ih h
      | failure pollResult =>
          by_cases hp : pyTruthy pollResult
          · simp [readyLoop, hp, StepM.bind, emit, traceOf]
          · simp only [loopExitOf, readyLoop, hp, stepBind_eq, stepBind_ok,
              stepPure_eq, emit, Bool.false_eq_true, if_false] at h ⊢
            rw [readyLoop_ok] at h
            simp [traceOf] at h ⊢
            simpa [traceOf] using ih h

theorem not_mem_stepBind {α β : Type} {x : StepM α} {f : α → StepM β}
    {c : Event} (hx : c ∉ x.1) (hf : ∀ a, c ∉ (f a).1) :
    c ∉ (StepM.bind x f).1 := by
  rcases hx2 : x.2 with e | a
  · rw [stepBind_of_err hx2]
    exact hx
  · rw [stepBind_of_ok hx2]
    intro hmem
    rcases List.mem_append.mp hmem with h | h
    · exact hx h
    · exact hf a h

theorem count_stepBind {α β : Type} (x : StepM α) (f : α → StepM β)
    (c : Event) :
    ((StepM.bind x f).1).count c =
      x.1.count c +
        (match x.2 with
         | Except.ok a => ((f a).1).count c
         | Except.error _ => 0) := by
  rcases hx : x.2 with e | a
  · rw [stepBind_of_err hx]
    simp [hx]
  · rw [stepBind_of_ok hx]
    simp [hx, List.count_append]

/-- The `",".join` in the snatch step always raises: its first item is a
tuple, not a string. -/
theorem snatch_join_fails (giftAddress : PyObj) :
    strJoin "," (snatchJoinItems giftAddress) =
      Except.error (PyError.typeError
        "sequence item 0: expected str instance, tuple found") := rfl

/-- Hence the snatch step raises before launching any subprocess. -/
theorem snatchStep_eq (cli : String) (giftAddress : PyObj)
    (env : FreshStartEnv) :
    snatchStep cli giftAddress env =
      ([], Except.error (PyError.typeError
        "sequence item 0: expected str instance, tuple found")) := rfl

theorem create_accounts_no_fresh (cli : String) (env : FreshStartEnv)
    (accts : List (String × String)) :
    Event.freshStartInvoked ∉ traceOf (create_accounts cli env accts) := by
  induction accts with
  | nil => simp [create_accounts, traceOf]
  | cons a rest ih =>
      obtain ⟨profileName, privateKey⟩ := a
      show Event.freshStartInvoked ∉ (create_accounts cli env
        ((profileName, privateKey) :: rest)).1
      simp only [create_accounts, stepBind_eq]
      refine not_mem_stepBind ?_ fun _ => ?_
      · simp [runSub]
      · refine not_mem_stepBind ?_ fun _ => ?_
        · simp [emit]
        · exact ih

theorem scanChanges_no_fresh (changes : List Json) :
    Event.freshStartInvoked ∉ traceOf (scanChanges changes) := by
  induction changes with
  | nil => simp [scanChanges, traceOf]
  | cons c rest ih =>
      show Event.freshStartInvoked ∉ (scanChanges (c :: rest)).1
      simp only [scanChanges, stepBind_eq]
      refine not_mem_stepBind ?_ fun _ => ?_
      · simp [emit]
      · refine not_mem_stepBind ?_ fun d => ?_
        · simp [liftE]
        · refine not_mem_stepBind ?_ fun t => ?_
          · simp [liftE]
          · by_cases hm : jsonOptEqStr t EXPECTED_GIFT_TYPE
            · simp only [hm, if_true]
              refine not_mem_stepBind ?_ fun a => ?_
              · simp [liftE]
              · simp
            · simp only [hm, Bool.false_eq_true, if_false]
              exact ih

theorem resolveGiftAddress_no_fresh (changes : List Json) :
    Event.freshStartInvoked ∉ traceOf (resolveGiftAddress changes) := by
  show Event.freshStartInvoked ∉ (resolveGiftAddress changes).1
  simp only [resolveGiftAddress, stepBind_eq]
  refine not_mem_stepBind (scanChanges_no_fresh changes) fun o => ?_
  cases o <;> simp [pyRaise]

theorem resolveAndSnatch_no_fresh (cli : String) (env : FreshStartEnv)
    (changes : List Json) :
    Event.freshStartInvoked ∉ traceOf (resolveAndSnatch cli env changes) := by
  show Event.freshStartInvoked ∉ (resolveAndSnatch cli env changes).1
  simp only [resolveAndSnatch, stepBind_eq]
  refine not_mem_stepBind (resolveGiftAddress_no_fresh changes) fun a => ?_
  refine not_mem_stepBind ?_ fun _ => ?_
  · simp [emit]
  · refine not_mem_stepBind ?_ fun _ => ?_
    · rw [snatchStep_eq]
      simp
    · simp [emit]

theorem createGiftAndGetHash_no_fresh (cli : String) (env : FreshStartEnv)
    (now : Nat) :
    Event.freshStartInvoked ∉ traceOf (createGiftAndGetHash cli env now) := by
  show Event.freshStartInvoked ∉ (createGiftAndGetHash cli env now).1
  simp only [createGiftAndGetHash, stepBind_eq]
  refine not_mem_stepBind ?_ fun r => ?_
  · simp [runSub]
  · refine not_mem_stepBind ?_ fun _ => ?_
    · simp [emit]
    · simp [liftE]

theorem fresh_start_no_fresh (args : Args) (env : FreshStartEnv) (now : Nat) :
    Event.freshStartInvoked ∉ traceOf (fresh_start args env now) := by
  show Event.freshStartInvoked ∉ (fresh_start args env now).1
  simp only [fresh_start, stepBind_eq]
  refine not_mem_stepBind (create_accounts_no_fresh _ _ _) fun _ => ?_
  refine not_mem_stepBind ?_ fun _ => ?_
  · simp [runSub]
  · refine not_mem_stepBind ?_ fun _ => ?_
    · simp [emit]
    · refine not_mem_stepBind (createGiftAndGetHash_no_fresh _ _ _) fun h => ?_
      refine not_mem_stepBind ?_ fun d => ?_
      · show Event.freshStartInvoked ∉ (queryTxnByHash h env).1
        simp only [queryTxnByHash, stepBind_eq]
        refine not_mem_stepBind ?_ fun _ => ?_
        · simp [emit]
        · simp
      · refine not_mem_stepBind ?_ fun ch => ?_
        · simp [liftE]
        · refine not_mem_stepBind ?_ fun cl => ?_
          · simp [liftE]
          · refine not_mem_stepBind (resolveAndSnatch_no_fresh _ _ _) fun _ => ?_
            simp [emit]

theorem waitPhase_count (w : WaitBehavior) (c : Event)
    (h1 : c ≠ Event.waitChild) (h2 : c ≠ Event.interruptDelivered)
    (h3 : ∀ m, c ≠ Event.print m) :
    ((waitPhase w).1).count c = 0 := by
  cases w <;>
    simp [waitPhase, StepM.bind, emit, List.count_cons, h1, h2, h3,
      List.count_eq_zero]

theorem afterReady_count_fresh (args : Args) (env : FreshStartEnv)
    (w : WaitBehavior) (now : Nat) :
    ((afterReady args env w now).1).count Event.freshStartInvoked =
      if args.forceRestart then 1 else 0 := by
  have hwait : ((waitPhase w).1).count Event.freshStartInvoked = 0 := by
    refine waitPhase_count w _ ?_ ?_ ?_ <;> simp
  have hfs : ((fresh_start args env now).1).count Event.freshStartInvoked = 0 :=
    List.count_eq_zero.mpr (fresh_start_no_fresh args env now)
  by_cases hf : args.forceRestart
  · rcases hres : (fresh_start args env now).2 with e | u
    · simp [afterReady, hf, count_stepBind, emit, hres, hfs, List.count_cons]
    · simp [afterReady, hf, count_stepBind, emit, hres, hfs, hwait,
        List.count_cons]
      rcases (waitPhase w).2 with e | u2 <;> rfl
  · simp [afterReady, hf, count_stepBind, emit, hwait, List.count_cons]
    rcases (waitPhase w).2 with e | u2 <;> rfl

theorem snd_stepBind {α β : Type} (x : StepM α) (f : α → StepM β) :
    (StepM.bind x f).2 =
      match x.2 with
      | Except.ok a => (f a).2
      | Except.error e => Except.error e := by
  rcases hx : x.2 with e | a
  · rw [stepBind_of_err hx]
  · rw [stepBind_of_ok hx]

theorem readyLoop_cons_notready (rest : List ProbeResult) :
    readyLoop (ProbeResult.failure none :: rest) =
      (Event.probe :: Event.sleepPoll :: (readyLoop rest).1,
       (readyLoop rest).2) := by
  simp [readyLoop, pyTruthy, StepM.bind, emit]

theorem loopExitOf_cons_notready (rest : List ProbeResult) :
    loopExitOf (ProbeResult.failure none :: rest) = loopExitOf rest := by
  simp [loopExitOf, readyLoop_cons_notready]

theorem probeCountOf_cons_notready (rest : List ProbeResult) :
    probeCountOf (ProbeResult.failure none :: rest) =
      probeCountOf rest + 1 := by
  simp [probeCountOf, traceOf, readyLoop_cons_notready, List.count_cons]

theorem scanChanges_cons_skip (ty : Option String) (a : Json) (l : List Json)
    (h : ty ≠ some EXPECTED_GIFT_TYPE) :
    scanChanges (mkChange ty a :: l) =
      (Event.printChange :: (scanChanges l).1, (scanChanges l).2) := by
  cases ty with
  | none =>
      simp [scanChanges, mkChange, getItem, dictGet, jsonOptEqStr,
        StepM.bind, emit, liftE, List.lookup]
  | some t =>
      have ht : t ≠ EXPECTED_GIFT_TYPE := by
        intro hh
        exact h (by rw [hh])
      simp [scanChanges, mkChange, getItem, dictGet, jsonOptEqStr,
        StepM.bind, emit, liftE, List.lookup, ht]

theorem scanChanges_cons_hit (a : Json) (l : List Json) :
    scanChanges (mkChange (some EXPECTED_GIFT_TYPE) a :: l) =
      ([Event.printChange], Except.ok (some a)) := by
  simp [scanChanges, mkChange, getItem, dictGet, jsonOptEqStr,
    StepM.bind, emit, liftE, List.lookup]

theorem scanChanges_skips (pre : List (Option String × Json))
    (hpre : ∀ x ∈ pre, x.1 ≠ some EXPECTED_GIFT_TYPE) (l : List Json) :
    scanChanges ((pre.map fun x => mkChange x.1 x.2) ++ l) =
      ((pre.map fun _ => Event.printChange) ++ (scanChanges l).1,
       (scanChanges l).2) := by
  induction pre with
  | nil => simp
  | cons x rest ih =>
      obtain ⟨ty, ad⟩ := x
      have h1 : ty ≠ some EXPECTED_GIFT_TYPE := hpre _ (List.mem_cons_self _ _)
      have h2 : ∀ y ∈ rest, y.1 ≠ some EXPECTED_GIFT_TYPE :=
        fun y hy => hpre y (List.mem_cons_of_mem _ hy)
      simp only [List.map_cons, List.cons_append]
      rw [scanChanges_cons_skip ty ad _ h1, ih h2]

/-- C4: the gift-creation step submits, as the deployer identity, a
transaction whose arguments are exactly: share count 4, expiry timestamp
equal to the current time plus 1800 seconds, per-share amount 10,000,000,
an empty public-key option, and keyless-restriction false. -/
theorem c4_create_gift_parameters (cli : String) (now : Nat) :
    createGiftCmd cli now =
      [cli, "move", "run", "--assume-yes", "--profile", "deployer",
       "--function-id", "deployer::hongbao::create_gift_coin",
       "--type-args", "0x1::aptos_coin::AptosCoin", "--args",
       "u64:4", "u64:" ++ toString (now + 1800), "u64:10000000",
       "u8:[]", "bool:false"] := rfl

/-- C6: the snatch step never submits a transaction at all: the argument
list built on lines 214-229 is a list of tuples, so the `",".join` raises
`TypeError` before the CLI is invoked, for every resolved gift address. -/
theorem c6_snatch_join_type_error (cli : String) (giftAddress : PyObj)
    (env : FreshStartEnv) :
    snatchStep cli giftAddress env =
      ([], Except.error (PyError.typeError
        "sequence item 0: expected str instance, tuple found")) :=
  snatchStep_eq cli giftAddress env

/-- C10: with the debug option enabled, `logging.setLevel("DEBUG")` raises
`AttributeError` before any event: the trace is empty, so the port is
never reclaimed and the node is never launched. -/
theorem c10_debug_flag_raises (args : Args) (probes : List ProbeResult)
    (env : FreshStartEnv) (w : WaitBehavior) (now : Nat)
    (h : args.debug = true) :
    mainRun args probes env w now =
      ([], Except.error (PyError.attributeError
        "module logging has no attribute setLevel")) := by
  simp [mainRun, h, loggingSetLevel, StepM.bind]

/-- C10 witness: a concrete debug run raises before reclaiming the port. -/
theorem c10_witness :
    mainRun ⟨true, false, false, "aptos"⟩ [] sampleEnv
        WaitBehavior.exitsNormally 0 =
      ([], Except.error (PyError.attributeError
        "module logging has no attribute setLevel")) :=
  c10_debug_flag_raises ⟨true, false, false, "aptos"⟩ [] sampleEnv
    WaitBehavior.exitsNormally 0 rfl

/-- C5: extraction of `Result.transaction_hash` from the gift-creation
stdout fails for EVERY successful invocation, whatever JSON document the
child printed: `DEFAULT_SUBPROCESS_KWARGS` never captures stdout, so
`result.stdout` is `None` and `json.loads(None)` raises `TypeError`. -/
theorem c5_txn_hash_extraction_always_fails (cli : String)
    (env : FreshStartEnv) (now : Nat) (h : env.createGiftExit = 0) :
    resultOf (createGiftAndGetHash cli env now) =
      Except.error (PyError.typeError
        "the JSON object must be str, bytes or bytearray, not NoneType") := by
  simp [createGiftAndGetHash, runSub, subprocessRun, checkFlag,
    capturesStdout, DEFAULT_SUBPROCESS_KWARGS, h, getTxnHash, jsonLoads,
    resultOf, StepM.bind, emit, liftE, List.lookup, Except.bind]
  rfl

/-- C5 witness: even when the child prints exactly the expected JSON
document, the extraction raises `TypeError`. -/
theorem c5_witness :
    c5Env.createGiftExit = 0 ∧
    resultOf (createGiftAndGetHash "aptos" c5Env 1000) =
      Except.error (PyError.typeError
        "the JSON object must be str, bytes or bytearray, not NoneType") :=
  ⟨rfl, c5_txn_hash_extraction_always_fails "aptos" c5Env 1000 rfl⟩

/-- C2 counterexample: the child exits with code 0 before any successful
probe; `poll()` returns `0`, which is falsy, so the loop does NOT
terminate and issues a second probe - contradicting the claim that it
reports the crash regardless of the exit code. -/
theorem c2_counterexample :
    loopExitOf [ProbeResult.failure (some 0), ProbeResult.failure (some 0)]
        = none ∧
    probeCountOf [ProbeResult.failure (some 0), ProbeResult.failure (some 0)]
        = 2 := by
  constructor <;> rfl

/-- C2 (amended): if the child has exited with a NONZERO code before any
successful probe, the loop terminates reporting the crash at that very
probe and issues no subsequent probe. -/
theorem c2_crash_detection_nonzero (pre : List ProbeResult) (code : Int)
    (rest : List ProbeResult)
    (hpre : ∀ r ∈ pre, r = ProbeResult.failure none) (hcode : code ≠ 0) :
    loopExitOf (pre ++ ProbeResult.failure (some code) :: rest) =
      some LoopExit.crashed ∧
    probeCountOf (pre ++ ProbeResult.failure (some code) :: rest) =
      pre.length + 1 := by
  induction pre with
  | nil =>
      have htr : pyTruthy (some code) = true := by simp [pyTruthy, hcode]
      constructor
      · simp [loopExitOf, readyLoop, htr, StepM.bind, emit]
      · simp [probeCountOf, traceOf, readyLoop, htr, StepM.bind, emit,
          List.count_cons]
  | cons p pre ih =>
      have hp : p = ProbeResult.failure none := hpre p (List.mem_cons_self _ _)
      have hrest : ∀ r ∈ pre, r = ProbeResult.failure none :=
        fun r hr => hpre r (List.mem_cons_of_mem _ hr)
      obtain ⟨ih1, ih2⟩ := ih hrest
      subst hp
      rw [List.cons_append]
      refine ⟨?_, ?_⟩
      · rw [loopExitOf_cons_notready]
        exact ih1
      · rw [probeCountOf_cons_notready, ih2]
        simp [List.length_cons]

/-- C2 witness: one alive-probe, then the child is found exited with code
1: the loop crashes out after exactly two probes. -/
theorem c2_witness :
    (∀ r ∈ [ProbeResult.failure none], r = ProbeResult.failure none) ∧
    (1 : Int) ≠ 0 ∧
    loopExitOf ([ProbeResult.failure none] ++
        ProbeResult.failure (some 1) :: [ProbeResult.success 200]) =
      some LoopExit.crashed ∧
    probeCountOf ([ProbeResult.failure none] ++
        ProbeResult.failure (some 1) :: [ProbeResult.success 200]) = 2 := by
  refine ⟨by decide, by decide, ?_⟩
  have h := c2_crash_detection_nonzero [ProbeResult.failure none] 1
    [ProbeResult.success 200] (by decide) (by decide)
  exact ⟨h.1, h.2⟩

/-- C3: resolution scans the changes in order and returns the address of
the FIRST record whose `data.type` is the deployer-qualified Gift type;
with zero matching records it raises `NameError` (no address is produced)
and the claim step is never reached: no subprocess is invoked. -/
theorem c3_gift_address_resolution
    (pre : List (Option String × Json))
    (hpre : ∀ x ∈ pre, x.1 ≠ some EXPECTED_GIFT_TYPE)
    (addr : Json) (rest : List Json) (cli : String) (env : FreshStartEnv) :
    resultOf (resolveGiftAddress
        ((pre.map fun x => mkChange x.1 x.2)
          ++ mkChange (some EXPECTED_GIFT_TYPE) addr :: rest)) =
      Except.ok addr ∧
    resultOf (resolveAndSnatch cli env (pre.map fun x => mkChange x.1 x.2)) =
      Except.error (PyError.nameError "gift_address") ∧
    (traceOf (resolveAndSnatch cli env
        (pre.map fun x => mkChange x.1 x.2))).filter isRunSubprocess = [] := by
  have hscan1 : scanChanges ((pre.map fun x => mkChange x.1 x.2)
      ++ mkChange (some EXPECTED_GIFT_TYPE) addr :: rest) =
      ((pre.map fun _ => Event.printChange) ++ [Event.printChange],
       Except.ok (some addr)) := by
    rw [scanChanges_skips pre hpre, scanChanges_cons_hit]
  have hscan0 : scanChanges (pre.map fun x => mkChange x.1 x.2) =
      ((pre.map fun _ => Event.printChange), Except.ok none) := by
    have h := scanChanges_skips pre hpre []
    simpa [scanChanges] using h
  have hres : resolveGiftAddress (pre.map fun x => mkChange x.1 x.2) =
      ((pre.map fun _ => Event.printChange),
       Except.error (PyError.nameError "gift_address")) := by
    simp [resolveGiftAddress, hscan0, StepM.bind, pyRaise]
  refine ⟨?_, ?_, ?_⟩
  · simp [resolveGiftAddress, hscan1, StepM.bind, resultOf]
  · simp [resolveAndSnatch, hres, StepM.bind, resultOf]
  · simp only [resolveAndSnatch, stepBind_eq, traceOf]
    rw [stepBind_of_err (by rw [hres])]
    rw [hres]
    simp [List.filter_eq_nil_iff, isRunSubprocess]

/-- C3 witness: two non-matching records, then the matching one; and the
zero-match case on just the two non-matching records. -/
theorem c3_witness :
    (∀ x ∈ c3Pre, x.1 ≠ some EXPECTED_GIFT_TYPE) ∧
    resultOf (resolveGiftAddress ((c3Pre.map fun x => mkChange x.1 x.2)
        ++ mkChange (some EXPECTED_GIFT_TYPE) (Json.str "0xgift")
          :: [Json.null])) = Except.ok (Json.str "0xgift") ∧
    resultOf (resolveAndSnatch "aptos" sampleEnv
        (c3Pre.map fun x => mkChange x.1 x.2)) =
      Except.error (PyError.nameError "gift_address") ∧
    (traceOf (resolveAndSnatch "aptos" sampleEnv
        (c3Pre.map fun x => mkChange x.1 x.2))).filter isRunSubprocess
      = [] :=
  ⟨by decide, c3_gift_address_resolution c3Pre (by decide)
    (Json.str "0xgift") [Json.null] "aptos" sampleEnv⟩

/-- C9: (1) consecutive readiness probes are at least one poll interval
apart, so any window of length `p` contains at most one probe (no
busy-spin); (2) on repeated not-yet-ready failures with the child alive
the loop keeps issuing probes with no overall timeout: after any number
`n` of such failures it has issued all `n` probes and not exited. -/
theorem c9_poll_interval_no_timeout :
    (∀ (p : ℚ) (d : Nat → ℚ), 0 < p → (∀ k, 0 ≤ d k) →
      ∀ i j : Nat, i < j → probeTime p d i + p ≤ probeTime p d j) ∧
    (∀ (p : ℚ) (d : Nat → ℚ) (t : ℚ), 0 < p → (∀ k, 0 ≤ d k) →
      ∀ i j : Nat, t ≤ probeTime p d i → probeTime p d i < t + p →
        t ≤ probeTime p d j → probeTime p d j < t + p → i = j) ∧
    (∀ n : Nat,
      loopExitOf (List.replicate n (ProbeResult.failure none)) = none ∧
      probeCountOf (List.replicate n (ProbeResult.failure none)) = n) := by
  have key : ∀ (p : ℚ) (d : Nat → ℚ), 0 < p → (∀ k, 0 ≤ d k) →
      ∀ i j : Nat, i < j → probeTime p d i + p ≤ probeTime p d j := by
    intro p d hp hd i j hij
    induction j with
    | zero => omega
    | succ j ih =>
        rcases Nat.lt_succ_iff_lt_or_eq.mp hij with h | h
        · have h1 := ih h
          have h2 := hd j
          simp only [probeTime]
          linarith
        · subst h
          have h2 := hd i
          simp only [probeTime]
          linarith
  refine ⟨key, ?_, ?_⟩
  · intro p d t hp hd i j h1 h2 h3 h4
    by_contra hne
    rcases lt_or_gt_of_ne hne with h | h
    · have hk := key p d hp hd i j h
      linarith
    · have hk := key p d hp hd j i h
      linarith
  · intro n
    induction n with
    | zero => exact ⟨rfl, rfl⟩
    | succ n ih =>
        rw [List.replicate_succ]
        exact ⟨by rw [loopExitOf_cons_notready]; exact ih.1,
               by rw [probeCountOf_cons_notready, ih.2]⟩

/-- C9 witness: at interval 1/4 with instantaneous probes, probes 0 and 1
are 1/4 apart; and after three alive-failures the loop has issued three
probes and not exited. -/
theorem c9_witness :
    ((0 : ℚ) < 1/4 ∧
      probeTime (1/4) (fun _ => 0) 0 + 1/4 ≤ probeTime (1/4) (fun _ => 0) 1) ∧
    (loopExitOf (List.replicate 3 (ProbeResult.failure none)) = none ∧
     probeCountOf (List.replicate 3 (ProbeResult.failure none)) = 3) :=
  ⟨⟨by norm_num,
    c9_poll_interval_no_timeout.1 (1/4) (fun _ => 0) (by norm_num)
      (fun _ => le_refl 0) 0 1 (by decide)⟩,
   c9_poll_interval_no_timeout.2.2 3⟩

theorem preReadyTrace_count_fresh (probes : List ProbeResult) :
    (preReadyTrace probes).count Event.freshStartInvoked = 0 := by
  have h0 := readyLoop_count_eq_zero probes Event.freshStartInvoked
    (by simp) (by simp) (by simp)
  simp [preReadyTrace, List.count_cons, h0]

/-- C1 (amended): for every run whose readiness loop exits via a 200
response, `fresh_start` is invoked exactly once afterwards when the
force-restart flag is set and zero times otherwise; it is never invoked
before the loop observes the node healthy (the trace up to and including
the loop contains no invocation). -/
theorem c1_freshstart_once_iff_force (args : Args) (probes : List ProbeResult)
    (env : FreshStartEnv) (w : WaitBehavior) (now : Nat)
    (hdbg : args.debug = false)
    (hready : loopExitOf probes = some LoopExit.ready) :
    (traceOf (mainRun args probes env w now)).count Event.freshStartInvoked =
      (if args.forceRestart then 1 else 0) ∧
    traceOf (mainRun args probes env w now) =
      preReadyTrace probes ++ traceOf (afterReady args env w now) ∧
    (preReadyTrace probes).count Event.freshStartInvoked = 0 := by
  have hm := main_ready_eq args probes env w now hdbg hready
  refine ⟨?_, ?_, preReadyTrace_count_fresh probes⟩
  · rw [traceOf, hm]
    simp only [List.count_append]
    rw [preReadyTrace_count_fresh probes, traceOf, afterReady_count_fresh]
    simp
  · rw [traceOf, hm]

/-- C1 counterexample: a run whose readiness loop exits via 200 but whose
force-restart flag is off invokes `fresh_start` zero times, not once. -/
theorem c1_counterexample :
    loopExitOf [ProbeResult.success 200] = some LoopExit.ready ∧
    (traceOf (mainRun noForceArgs [ProbeResult.success 200] sampleEnv
        WaitBehavior.exitsNormally 0)).count Event.freshStartInvoked = 0 ∧
    (traceOf (mainRun noForceArgs [ProbeResult.success 200] sampleEnv
        WaitBehavior.exitsNormally 0)).count Event.freshStartInvoked ≠ 1 := by
  refine ⟨rfl, rfl, by decide⟩

/-- C1 witness: a force-restart run that becomes ready invokes
`fresh_start` exactly once, and never before the ready observation. -/
theorem c1_witness :
    (traceOf (mainRun forceArgs [ProbeResult.success 200] sampleEnv
        WaitBehavior.exitsNormally 0)).count Event.freshStartInvoked =
      (if forceArgs.forceRestart then 1 else 0) ∧
    traceOf (mainRun forceArgs [ProbeResult.success 200] sampleEnv
        WaitBehavior.exitsNormally 0) =
      preReadyTrace [ProbeResult.success 200] ++
        traceOf (afterReady forceArgs sampleEnv WaitBehavior.exitsNormally 0) ∧
    (preReadyTrace [ProbeResult.success 200]).count Event.freshStartInvoked
      = 0 :=
  c1_freshstart_once_iff_force forceArgs [ProbeResult.success 200] sampleEnv
    WaitBehavior.exitsNormally 0 rfl rfl

/-- C7 counterexample: a StartupFailure run (node exits 1 before ready)
reports the crash but the process exits with status 0, not non-zero. -/
theorem c7_counterexample :
    mainExitStatus forceArgs [ProbeResult.failure (some 1)] sampleEnv
        WaitBehavior.exitsNormally 0 = 0 ∧
    Event.print "[Local] Localnet crashed on startup, exiting..."
      ∈ traceOf (mainRun forceArgs [ProbeResult.failure (some 1)] sampleEnv
          WaitBehavior.exitsNormally 0) := by
  exact ⟨rfl, by decide⟩

/-- C8: on a single interrupt received while waiting for node exit, the
supervisor never kills the child and sends no second signal: exactly one
interrupt reaches the child, the supervisor blocks on `wait()` (twice:
the interrupted wait and the follow-up wait), and the run terminates as
normal termination. -/
theorem c8_single_interrupt_clean_shutdown (args : Args)
    (probes : List ProbeResult) (env : FreshStartEnv) (now : Nat)
    (hdbg : args.debug = false) (hforce : args.forceRestart = false)
    (hready : loopExitOf probes = some LoopExit.ready) :
    resultOf (mainRun args probes env WaitBehavior.interrupted now) =
      Except.ok MainOutcome.finished ∧
    (traceOf (mainRun args probes env WaitBehavior.interrupted now)).count
      Event.killChild = 0 ∧
    (traceOf (mainRun args probes env WaitBehavior.interrupted now)).count
      Event.sendSignal = 0 ∧
    (traceOf (mainRun args probes env WaitBehavior.interrupted now)).count
      Event.interruptDelivered = 1 ∧
    (traceOf (mainRun args probes env WaitBehavior.interrupted now)).count
      Event.waitChild = 2 := by
  have hm := main_ready_eq args probes env WaitBehavior.interrupted now
    hdbg hready
  have haft : afterReady args env WaitBehavior.interrupted now =
      ([Event.print "[Local] Localnet came up!",
        Event.print "[Local] Setup complete, localnet is ready and running",
        Event.waitChild, Event.interruptDelivered,
        Event.print "[Local] Received ctrl-c, shutting down localnet",
        Event.waitChild, Event.print "[Local] Localnet shut down",
        Event.print "[Local] Done, goodbye!"],
       Except.ok MainOutcome.finished) := by
    simp [afterReady, hforce, waitPhase, StepM.bind, emit]
  have hcount : ∀ c : Event, c ≠ Event.probe → c ≠ Event.sleepPoll →
      (∀ m, c ≠ Event.print m) → c ≠ Event.launchNode →
      (∀ n, c ≠ Event.reclaimPort n) →
      (traceOf (mainRun args probes env WaitBehavior.interrupted now)).count c
        = ([Event.waitChild, Event.interruptDelivered, Event.waitChild] :
            List Event).count c := by
    intro c h1 h2 h3 h4 h5
    have h3m : ∀ m, Event.print m ≠ c := fun m => Ne.symm (h3 m)
    have h4m : Event.launchNode ≠ c := Ne.symm h4
    have h5m : ∀ n, Event.reclaimPort n ≠ c := fun n => Ne.symm (h5 n)
    rw [traceOf, hm]
    have h0 := readyLoop_count_eq_zero probes c h1 h2 (h3 _)
    rw [traceOf] at h0
    simp [preReadyTrace, traceOf, List.count_append, List.count_cons, h0,
      haft, h3m, h4m, h5m, List.count_nil]
  refine ⟨?_, ?_, ?_, ?_, ?_⟩
  · rw [resultOf, hm]
    simp [haft, resultOf]
  · rw [hcount Event.killChild (by simp) (by simp) (by simp) (by simp)
      (by simp)]
    rfl
  · rw [hcount Event.sendSignal (by simp) (by simp) (by simp) (by simp)
      (by simp)]
    rfl
  · rw [hcount Event.interruptDelivered (by simp) (by simp) (by simp)
      (by simp) (by simp)]
    rfl
  · rw [hcount Event.waitChild (by simp) (by simp) (by simp) (by simp)
      (by simp)]
    rfl

/-- C8 witness: a concrete ready, non-force-restart, singly-interrupted
run: clean shutdown with one delivered interrupt and two waits. -/
theorem c8_witness :
    resultOf (mainRun noForceArgs [ProbeResult.success 200] sampleEnv
        WaitBehavior.interrupted 0) = Except.ok MainOutcome.finished ∧
    (traceOf (mainRun noForceArgs [ProbeResult.success 200] sampleEnv
        WaitBehavior.interrupted 0)).count Event.killChild = 0 ∧
    (traceOf (mainRun noForceArgs [ProbeResult.success 200] sampleEnv
        WaitBehavior.interrupted 0)).count Event.sendSignal = 0 ∧
    (traceOf (mainRun noForceArgs [ProbeResult.success 200] sampleEnv
        WaitBehavior.interrupted 0)).count Event.interruptDelivered = 1 ∧
    (traceOf (mainRun noForceArgs [ProbeResult.success 200] sampleEnv
        WaitBehavior.interrupted 0)).count Event.waitChild = 2 :=
  c8_single_interrupt_clean_shutdown noForceArgs [ProbeResult.success 200]
    sampleEnv 0 rfl rfl rfl

theorem create_accounts_ok (cli : String) (env : FreshStartEnv)
    (accts : List (String × String))
    (h : ∀ x ∈ accts, env.initExit x.1 = 0) :
    create_accounts cli env accts =
      (accts.bind fun x =>
        [Event.runSubprocess (initCmd cli x.1 x.2),
         Event.print ("[Local] Created account " ++ x.1 ++ " on localnet")],
       Except.ok ()) := by
  induction accts with
  | nil => rfl
  | cons x rest ih =>
      obtain ⟨xp, xk⟩ := x
      have hx : env.initExit xp = 0 := h _ (List.mem_cons_self _ _)
      have hr : ∀ y ∈ rest, env.initExit y.1 = 0 :=
        fun y hy => h y (List.mem_cons_of_mem _ hy)
      simp [create_accounts, runSub, subprocessRun, checkFlag,
        DEFAULT_SUBPROCESS_KWARGS, StepM.bind, hx, List.lookup, emit, ih hr]

theorem create_accounts_err (cli : String) (env : FreshStartEnv)
    (pre post : List (String × String)) (p k : String)
    (hpre : ∀ x ∈ pre, env.initExit x.1 = 0) (hp : env.initExit p ≠ 0) :
    create_accounts cli env (pre ++ (p, k) :: post) =
      ((pre.bind fun x =>
          [Event.runSubprocess (initCmd cli x.1 x.2),
           Event.print ("[Local] Created account " ++ x.1 ++ " on localnet")])
        ++ [Event.runSubprocess (initCmd cli p k)],
       Except.error (PyError.calledProcessError (initCmd cli p k))) := by
  induction pre with
  | nil =>
      simp [create_accounts, runSub, subprocessRun, checkFlag,
        DEFAULT_SUBPROCESS_KWARGS, StepM.bind, hp, List.lookup, emit,
        bne_iff_ne]
  | cons x rest ih =>
      obtain ⟨xp, xk⟩ := x
      have hx : env.initExit xp = 0 := hpre _ (List.mem_cons_self _ _)
      have hr : ∀ y ∈ rest, env.initExit y.1 = 0 :=
        fun y hy => hpre y (List.mem_cons_of_mem _ hy)
      simp [create_accounts, runSub, subprocessRun, checkFlag,
        DEFAULT_SUBPROCESS_KWARGS, StepM.bind, hx, List.lookup, emit, ih hr]

theorem fresh_start_init_err (args : Args) (env : FreshStartEnv) (now : Nat)
    (pre post : List (String × String)) (p k : String)
    (hacc : ACCOUNTS = pre ++ (p, k) :: post)
    (hpre : ∀ x ∈ pre, env.initExit x.1 = 0) (hp : env.initExit p ≠ 0) :
    fresh_start args env now =
      ((pre.bind fun x =>
          [Event.runSubprocess (initCmd args.aptosCliPath x.1 x.2),
           Event.print ("[Local] Created account " ++ x.1 ++ " on localnet")])
        ++ [Event.runSubprocess (initCmd args.aptosCliPath p k)],
       Except.error (PyError.calledProcessError
         (initCmd args.aptosCliPath p k))) := by
  have hca := create_accounts_err args.aptosCliPath env pre post p k hpre hp
  simp only [fresh_start, stepBind_eq, hacc]
  rw [hca]
  simp

theorem fresh_start_publish_err (args : Args) (env : FreshStartEnv)
    (now : Nat) (hinits : ∀ x ∈ ACCOUNTS, env.initExit x.1 = 0)
    (hpub : env.publishExit ≠ 0) :
    fresh_start args env now =
      ((ACCOUNTS.bind fun x =>
          [Event.runSubprocess (initCmd args.aptosCliPath x.1 x.2),
           Event.print ("[Local] Created account " ++ x.1 ++ " on localnet")])
        ++ [Event.runSubprocess (publishCmd args.aptosCliPath args.offline)],
       Except.error (PyError.calledProcessError
         (publishCmd args.aptosCliPath args.offline))) := by
  have hca := create_accounts_ok args.aptosCliPath env ACCOUNTS hinits
  simp only [fresh_start, stepBind_eq]
  rw [hca]
  simp [runSub, subprocessRun, checkFlag, DEFAULT_SUBPROCESS_KWARGS,
    StepM.bind, hpub, List.lookup, bne_iff_ne, emit]

theorem fresh_start_gift_err (args : Args) (env : FreshStartEnv) (now : Nat)
    (hinits : ∀ x ∈ ACCOUNTS, env.initExit x.1 = 0)
    (hpub : env.publishExit = 0) (hgift : env.createGiftExit ≠ 0) :
    fresh_start args env now =
      ((ACCOUNTS.bind fun x =>
          [Event.runSubprocess (initCmd args.aptosCliPath x.1 x.2),
           Event.print ("[Local] Created account " ++ x.1 ++ " on localnet")])
        ++ [Event.runSubprocess (publishCmd args.aptosCliPath args.offline),
            Event.print ("[Local] Published the " ++ PACKAGE
              ++ " Move module at " ++ DEPLOYER_ADDRESS),
            Event.runSubprocess (createGiftCmd args.aptosCliPath now)],
       Except.error (PyError.calledProcessError
         (createGiftCmd args.aptosCliPath now))) := by
  have hca := create_accounts_ok args.aptosCliPath env ACCOUNTS hinits
  simp only [fresh_start, stepBind_eq]
  rw [hca]
  simp [runSub, subprocessRun, checkFlag, DEFAULT_SUBPROCESS_KWARGS,
    StepM.bind, hpub, hgift, List.lookup, bne_iff_ne, emit,
    createGiftAndGetHash]

theorem filter_init_trace (cli : String) (l : List (String × String)) :
    ((l.bind fun x =>
        [Event.runSubprocess (initCmd cli x.1 x.2),
         Event.print ("[Local] Created account " ++ x.1 ++ " on localnet")]).filter
      isRunSubprocess) =
      l.map fun x => Event.runSubprocess (initCmd cli x.1 x.2) := by
  induction l with
  | nil => rfl
  | cons x rest ih =>
      simp [List.cons_bind, List.filter_append, List.filter_cons,
        isRunSubprocess, ih]

theorem mainExitStatus_one_of_fresh_err (args : Args)
    (probes : List ProbeResult) (env : FreshStartEnv) (w : WaitBehavior)
    (now : Nat) (e : PyError) (hdbg : args.debug = false)
    (hready : loopExitOf probes = some LoopExit.ready)
    (hforce : args.forceRestart = true)
    (hfs : (fresh_start args env now).2 = Except.error e) :
    mainExitStatus args probes env w now = 1 := by
  have hm := main_ready_eq args probes env w now hdbg hready
  have haft : (afterReady args env w now).2 = Except.error e := by
    simp [afterReady, hforce, snd_stepBind, emit, hfs]
  unfold mainExitStatus
  rw [hm]
  simp [resultOf, haft]

/-- C7 (amended): any provisioning step's subprocess failure propagates as
an uncaught `CalledProcessError` naming the failing step's command,
launches none of the remaining steps' subprocesses, and makes the process
exit non-zero (status 1); this holds for a failing account `init` at any
position, a failing module `publish`, and a failing gift creation, and
more generally any uncaught exception in `fresh_start` exits non-zero.
But the StartupFailure path (the node crashing before becoming ready)
merely reports the crash and RETURNS NORMALLY: the process exits with
status 0 - though indeed with no provisioning attempted. -/
theorem c7_fatal_error_exit_status :
    (∀ (args : Args) (probes : List ProbeResult) (env : FreshStartEnv)
        (w : WaitBehavior) (now : Nat), args.debug = false →
      loopExitOf probes = some LoopExit.crashed →
      mainExitStatus args probes env w now = 0 ∧
      (traceOf (mainRun args probes env w now)).count
        Event.freshStartInvoked = 0 ∧
      Event.print "[Local] Localnet crashed on startup, exiting..."
        ∈ traceOf (mainRun args probes env w now)) ∧
    (∀ (args : Args) (probes : List ProbeResult) (env : FreshStartEnv)
        (w : WaitBehavior) (now : Nat) (e : PyError), args.debug = false →
      loopExitOf probes = some LoopExit.ready → args.forceRestart = true →
      (fresh_start args env now).2 = Except.error e →
      mainExitStatus args probes env w now = 1) ∧
    (∀ (args : Args) (env : FreshStartEnv) (now : Nat)
        (pre post : List (String × String)) (p k : String),
      ACCOUNTS = pre ++ (p, k) :: post →
      (∀ x ∈ pre, env.initExit x.1 = 0) → env.initExit p ≠ 0 →
      (fresh_start args env now).2 =
        Except.error (PyError.calledProcessError
          (initCmd args.aptosCliPath p k)) ∧
      (traceOf (fresh_start args env now)).filter isRunSubprocess =
        (pre.map fun x => Event.runSubprocess (initCmd args.aptosCliPath x.1 x.2))
          ++ [Event.runSubprocess (initCmd args.aptosCliPath p k)] ∧
      (∀ (probes : List ProbeResult) (w : WaitBehavior), args.debug = false →
        loopExitOf probes = some LoopExit.ready → args.forceRestart = true →
        mainExitStatus args probes env w now = 1)) ∧
    (∀ (args : Args) (env : FreshStartEnv) (now : Nat),
      (∀ x ∈ ACCOUNTS, env.initExit x.1 = 0) → env.publishExit ≠ 0 →
      (fresh_start args env now).2 =
        Except.error (PyError.calledProcessError
          (publishCmd args.aptosCliPath args.offline)) ∧
      (traceOf (fresh_start args env now)).filter isRunSubprocess =
        (ACCOUNTS.map fun x =>
            Event.runSubprocess (initCmd args.aptosCliPath x.1 x.2))
          ++ [Event.runSubprocess (publishCmd args.aptosCliPath args.offline)] ∧
      (∀ (probes : List ProbeResult) (w : WaitBehavior), args.debug = false →
        loopExitOf probes = some LoopExit.ready → args.forceRestart = true →
        mainExitStatus args probes env w now = 1)) ∧
    (∀ (args : Args) (env : FreshStartEnv) (now : Nat),
      (∀ x ∈ ACCOUNTS, env.initExit x.1 = 0) → env.publishExit = 0 →
      env.createGiftExit ≠ 0 →
      (fresh_start args env now).2 =
        Except.error (PyError.calledProcessError
          (createGiftCmd args.aptosCliPath now)) ∧
      (traceOf (fresh_start args env now)).filter isRunSubprocess =
        (ACCOUNTS.map fun x =>
            Event.runSubprocess (initCmd args.aptosCliPath x.1 x.2))
          ++ [Event.runSubprocess (publishCmd args.aptosCliPath args.offline),
              Event.runSubprocess (createGiftCmd args.aptosCliPath now)] ∧
      (∀ (probes : List ProbeResult) (w : WaitBehavior), args.debug = false →
        loopExitOf probes = some LoopExit.ready → args.forceRestart = true →
        mainExitStatus args probes env w now = 1)) := by
  refine ⟨?_, ?_, ?_, ?_, ?_⟩
  · intro args probes env w now hdbg hcrash
    have hm := main_crashed_eq args probes env w now hdbg hcrash
    refine ⟨?_, ?_, ?_⟩
    · unfold mainExitStatus
      rw [hm]
    · rw [traceOf, hm]
      exact preReadyTrace_count_fresh probes
    · rw [traceOf, hm]
      have hp := readyLoop_crash_print probes hcrash
      simp [preReadyTrace, traceOf] at hp ⊢
      exact hp
  · intro args probes env w now e hdbg hready hforce hfs
    exact mainExitStatus_one_of_fresh_err args probes env w now e
      hdbg hready hforce hfs
  · intro args env now pre post p k hacc hpre hp
    have hfs := fresh_start_init_err args env now pre post p k hacc hpre hp
    refine ⟨by rw [hfs], ?_, ?_⟩
    · rw [traceOf, hfs]
      simp [List.filter_append, filter_init_trace, List.filter_cons,
        isRunSubprocess]
    · intro probes w hdbg hready hforce
      exact mainExitStatus_one_of_fresh_err args probes env w now _
        hdbg hready hforce (by rw [hfs])
  · intro args env now hinits hpub
    have hfs := fresh_start_publish_err args env now hinits hpub
    refine ⟨by rw [hfs], ?_, ?_⟩
    · rw [traceOf, hfs]
      simp [List.filter_append, filter_init_trace, List.filter_cons,
        isRunSubprocess]
    · intro probes w hdbg hready hforce
      exact mainExitStatus_one_of_fresh_err args probes env w now _
        hdbg hready hforce (by rw [hfs])
  · intro args env now hinits hpub hgift
    have hfs := fresh_start_gift_err args env now hinits hpub hgift
    refine ⟨by rw [hfs], ?_, ?_⟩
    · rw [traceOf, hfs]
      simp [List.filter_append, filter_init_trace, List.filter_cons,
        isRunSubprocess]
    · intro probes w hdbg hready hforce
      exact mainExitStatus_one_of_fresh_err args probes env w now _
        hdbg hready hforce (by rw [hfs])

/-- C7 witness: the crashed-startup case exits 0 with no provisioning; a
failing deployer `aptos init`, a failing `publish`, and a failing gift
creation each raise the step-naming `CalledProcessError` and make the
run exit 1. -/
theorem c7_witness :
    (mainExitStatus forceArgs [ProbeResult.failure (some 2)] sampleEnv
        WaitBehavior.exitsNormally 0 = 0 ∧
      (traceOf (mainRun forceArgs [ProbeResult.failure (some 2)] sampleEnv
          WaitBehavior.exitsNormally 0)).count Event.freshStartInvoked = 0 ∧
      Event.print "[Local] Localnet crashed on startup, exiting..."
        ∈ traceOf (mainRun forceArgs [ProbeResult.failure (some 2)] sampleEnv
            WaitBehavior.exitsNormally 0)) ∧
    ((fresh_start forceArgs c7Env 0).2 =
        Except.error (PyError.calledProcessError
          (initCmd "aptos" DEPLOYER_PROFILE_NAME DEPLOYER_PRIVATE_KEY)) ∧
      mainExitStatus forceArgs [ProbeResult.success 200] c7Env
        WaitBehavior.exitsNormally 0 = 1) ∧
    ((fresh_start forceArgs c7PubEnv 0).2 =
        Except.error (PyError.calledProcessError (publishCmd "aptos" false)) ∧
      mainExitStatus forceArgs [ProbeResult.success 200] c7PubEnv
        WaitBehavior.exitsNormally 0 = 1) ∧
    ((fresh_start forceArgs c7GiftEnv 0).2 =
        Except.error (PyError.calledProcessError (createGiftCmd "aptos" 0)) ∧
      mainExitStatus forceArgs [ProbeResult.success 200] c7GiftEnv
        WaitBehavior.exitsNormally 0 = 1) := by
  have hinit := c7_fatal_error_exit_status.2.2.1 forceArgs c7Env 0 []
    [(PLAYER1_PROFILE_NAME, PLAYER1_PRIVATE_KEY),
     (PLAYER2_PROFILE_NAME, PLAYER2_PRIVATE_KEY)]
    DEPLOYER_PROFILE_NAME DEPLOYER_PRIVATE_KEY rfl (by simp) (by decide)
  have hpub := c7_fatal_error_exit_status.2.2.2.1 forceArgs c7PubEnv 0
    (by decide) (by decide)
  have hgift := c7_fatal_error_exit_status.2.2.2.2 forceArgs c7GiftEnv 0
    (by decide) (by decide) (by decide)
  exact ⟨c7_fatal_error_exit_status.1 forceArgs [ProbeResult.failure (some 2)]
      sampleEnv WaitBehavior.exitsNormally 0 rfl rfl,
    ⟨hinit.1, hinit.2.2 [ProbeResult.success 200]
      WaitBehavior.exitsNormally rfl rfl rfl⟩,
    ⟨hpub.1, hpub.2.2 [ProbeResult.success 200]
      WaitBehavior.exitsNormally rfl rfl rfl⟩,
    ⟨hgift.1, hgift.2.2 [ProbeResult.success 200]
      WaitBehavior.exitsNormally rfl rfl rfl⟩⟩
